import Mathlib

/-!
Shallow embedding of `src/transforms.py` (image preprocessing pipeline for
handwriting recognition) and verification of its specification.

An image is modelled as a height, a width, a dtype tag (numpy dtype name) and
a total pixel function; only pixels with indices below the bounds are
meaningful.  Randomness (`random.randint`) is modelled by passing the drawn
values as explicit parameters; the theorems quantify over every value the
sampler can return.  Fallible code returns `Except String`.
-/

namespace Transforms

/-- A 2D numpy array of pixel intensities: shape `(height, width)`, a dtype
tag, and the pixel contents. -/
structure Image where
  height : Nat
  width : Nat
  dtype : String
  pixel : Nat → Nat → Int

/-- Embedding of the numpy slice `img[:h, :w]`: slicing clamps at the array
bounds, so the result has shape `(min img.height h, min img.width w)` and
keeps the top-left pixels. -/
def cropTopLeft (img : Image) (h w : Nat) : Image :=
  { height := min img.height h
    width := min img.width w
    dtype := img.dtype
    pixel := img.pixel }

/-- Embedding of `np.zeros((h, w), dtype=dtype)`. -/
def zeros (h w : Nat) (dtype : String) : Image :=
  { height := h, width := w, dtype := dtype, pixel := fun _ _ => 0 }

/-- Embedding of the numpy slice assignment
`res[top : top + img.height, left : left + img.width] = img`. -/
def sliceAssign (res img : Image) (top left : Nat) : Image :=
  { res with
    pixel := fun i j =>
      if top ≤ i ∧ i < top + img.height ∧ left ≤ j ∧ j < left + img.width then
        img.pixel (i - top) (j - left)
      else res.pixel i j }

/-- Embedding of `randomly_displace_and_pad` from `src/transforms.py`.
The two values drawn by `random.randint(0, frame_h - img_h)` and
`random.randint(0, frame_w - img_w)` are passed in as `pad_top` and
`pad_left`; `raise AssertionError` is modelled as `Except.error`. -/
def randomly_displace_and_pad (pad_top pad_left : Nat) (img : Image)
    (padded_size : Nat × Nat) (crop_if_necessary : Bool) : Except String Image :=
  let frame_h := padded_size.1
  let frame_w := padded_size.2
  let img_h := img.height
  let img_w := img.width
  let step : Except String Image :=
    if frame_h < img_h ∨ frame_w < img_w then
      if crop_if_necessary then
        Except.ok (cropTopLeft img (min img_h frame_h) (min img_w frame_w))
      else
        Except.error ("Frame is smaller than the image: (" ++ toString frame_h
          ++ ", " ++ toString frame_w ++ ") vs. (" ++ toString img_h ++ ", "
          ++ toString img_w ++ ")")
    else Except.ok img
  match step with
  | Except.error e => Except.error e
  | Except.ok cropped =>
      Except.ok (sliceAssign (zeros frame_h frame_w cropped.dtype) cropped pad_top pad_left)

/-- Embedding of Python `int(q)` for a real (here rational) `q`: truncation
toward zero. -/
def pyInt (q : ℚ) : Int :=
  if 0 ≤ q then ⌊q⌋ else ⌈q⌉

/-- Modelled from the spec: `cv.resize` is an external image-resizing
primitive (an excluded collaborator, not part of this repository).  Per its
contract it returns an image of exactly the requested `(new_w, new_h)` size
with the same dtype; pixel contents are modelled as nearest-neighbour
sampling of the source. -/
def cvResize (img : Image) (new_w new_h : Nat) : Image :=
  { height := new_h
    width := new_w
    dtype := img.dtype
    pixel := fun i j => img.pixel (i * img.height / new_h) (j * img.width / new_w) }

/-- Embedding of `dpi_adjusting` from `src/transforms.py`: resize to
`(math.ceil (width * scale), math.ceil (height * scale))`. -/
def dpi_adjusting (img : Image) (scale : ℚ) : Image :=
  let height := img.height
  let width := img.width
  let new_height := (Int.ceil ((height : ℚ) * scale)).toNat
  let new_width := (Int.ceil ((width : ℚ) * scale)).toNat
  cvResize img new_width new_height

/-- Modelled from the spec: `A.RandomScale.apply` (the superclass method that
`SafeRandomScale.apply` delegates to) is the external standard
scale-and-resize operator from albumentations; it resizes the image by the
multiplicative factor `scale`, i.e. to `(int (height * scale), int (width *
scale))`. -/
def randomScaleSuperApply (img : Image) (scale : ℚ) : Image :=
  cvResize img (pyInt ((img.width : ℚ) * scale)).toNat
    (pyInt ((img.height : ℚ) * scale)).toNat

/-- Embedding of `SafeRandomScale.apply` from `src/transforms.py`.  The
superclass operator it delegates to is passed in as `superApply` (in the
source it is `super().apply`, i.e. `A.RandomScale.apply`); `scale` is the
multiplicative factor the albumentations machinery passes in. -/
def SafeRandomScale.apply (superApply : Image → ℚ → Image) (img : Image)
    (scale : ℚ) : Image :=
  let height := img.height
  let width := img.width
  let new_height := pyInt ((height : ℚ) * scale)
  let new_width := pyInt ((width : ℚ) * scale)
  if new_height ≤ 0 ∨ new_width ≤ 0 then img
  else superApply img scale

/-- One stage of an albumentations pipeline, abstracted by its operator kind
and parameters.  External operators (rotate, brightness, noise, perspective,
normalize, pad) are opaque tags; the custom operators carry the arguments
the source passes them. -/
inductive Stage where
  | dpiAdjust (scale : ℚ)
  | safeRandomScale (scale_limit : ℚ) (p : ℚ)
  | safeRotate (limit : Int)
  | randomBrightnessContrast
  | perspective (lo hi : ℚ)
  | gaussNoise
  | normalize (mean std : ℚ)
  | randomDisplaceAndPad (padded_size : Nat × Nat) (crop_if_necessary : Bool)
  | padIfNeeded (min_height min_width : Nat)
deriving DecidableEq

/-- Constructor arguments of the `IAMImageTransforms` dataclass (the fields
with `init=False` are the two pipelines built by `__post_init__`, modelled
as the result of `IAMImageTransforms.postInit` below). -/
structure IAMImageTransforms where
  max_img_size : Nat × Nat
  parse_method : String
  normalize_params : ℚ × ℚ
  scale : ℚ := 1 / 2
  random_scale_limit : ℚ := 1 / 10
  random_rotate_limit : Int := 10

/-- Embedding of the computation of `padded_h, padded_w` in
`IAMImageTransforms.__post_init__`:
`max_scale = scale + scale * random_scale_limit`, then
`math.ceil (max_scale * max_img_h)` and `math.ceil (max_scale * max_img_w)`. -/
def IAMImageTransforms.paddedSize (cfg : IAMImageTransforms) : Nat × Nat :=
  let max_scale := cfg.scale + cfg.scale * cfg.random_scale_limit
  ((Int.ceil (max_scale * (cfg.max_img_size.1 : ℚ))).toNat,
   (Int.ceil (max_scale * (cfg.max_img_size.2 : ℚ))).toNat)

/-- Embedding of `IAMImageTransforms.__post_init__`: builds the pair
`(train_trnsf, test_trnsf)` of stage lists, dispatching on `parse_method`;
`raise ValueError` is modelled as `Except.error`. -/
def IAMImageTransforms.postInit (cfg : IAMImageTransforms) :
    Except String (List Stage × List Stage) :=
  let scale := cfg.scale
  let random_scale_limit := cfg.random_scale_limit
  let random_rotate_limit := cfg.random_rotate_limit
  let mean := cfg.normalize_params.1
  let std := cfg.normalize_params.2
  let max_img_h := cfg.max_img_size.1
  let max_img_w := cfg.max_img_size.2
  if cfg.parse_method = "word" then
    Except.ok
      ([Stage.dpiAdjust scale,
        Stage.safeRandomScale random_scale_limit (1 / 2),
        Stage.safeRotate random_rotate_limit,
        Stage.randomBrightnessContrast,
        Stage.gaussNoise,
        Stage.normalize mean std],
       [Stage.dpiAdjust scale, Stage.normalize mean std])
  else if cfg.parse_method = "line" then
    Except.ok
      ([Stage.dpiAdjust scale,
        Stage.safeRandomScale random_scale_limit (1 / 2),
        Stage.safeRotate random_rotate_limit,
        Stage.randomBrightnessContrast,
        Stage.gaussNoise,
        Stage.normalize mean std],
       [Stage.dpiAdjust scale, Stage.normalize mean std])
  else if cfg.parse_method = "form" then
    Except.ok
      ([Stage.dpiAdjust scale,
        Stage.safeRandomScale random_scale_limit (1 / 2),
        Stage.safeRotate random_rotate_limit,
        Stage.randomBrightnessContrast,
        Stage.perspective (3 / 100) (5 / 100),
        Stage.gaussNoise,
        Stage.normalize mean std,
        Stage.randomDisplaceAndPad cfg.paddedSize true],
       [Stage.dpiAdjust scale, Stage.normalize mean std,
        Stage.padIfNeeded max_img_h max_img_w])
  else
    Except.error (cfg.parse_method ++ " is not a valid parse method.")

/-- A concrete 2 by 3 test image with distinct pixel values. -/
def img23 : Image :=
  { height := 2, width := 3, dtype := "uint8", pixel := fun i j => 10 * i + j + 1 }

/-- A concrete 10 by 10 test image with distinct pixel values. -/
def img1010 : Image :=
  { height := 10, width := 10, dtype := "uint8", pixel := fun i j => 10 * i + j }

/-- A concrete 100 by 100 test image. -/
def img100 : Image :=
  { height := 100, width := 100, dtype := "uint8", pixel := fun _ _ => 0 }

/-- A concrete 181 by 181 test image. -/
def img181 : Image :=
  { height := 181, width := 181, dtype := "uint8", pixel := fun _ _ => 0 }

/-- A concrete configuration with an unrecognized parse method. -/
def cfgPage : IAMImageTransforms :=
  { max_img_size := (100, 100), parse_method := "page",
    normalize_params := (1 / 2, 1 / 4) }

/-- A concrete configuration on which the rounded pipeline dimensions exceed
the precomputed frame. -/
def cfg181 : IAMImageTransforms :=
  { max_img_size := (181, 181), parse_method := "form",
    normalize_params := (0, 1), scale := 1 / 20, random_scale_limit := 1 / 10,
    random_rotate_limit := 10 }

theorem sliceAssign_height (res img : Image) (top left : Nat) :
    (sliceAssign res img top left).height = res.height := rfl

theorem sliceAssign_width (res img : Image) (top left : Nat) :
    (sliceAssign res img top left).width = res.width := rfl

theorem sliceAssign_dtype (res img : Image) (top left : Nat) :
    (sliceAssign res img top left).dtype = res.dtype := rfl

theorem sliceAssign_pixel_inside (res img : Image) (top left i j : Nat)
    (hi : i < img.height) (hj : j < img.width) :
    (sliceAssign res img top left).pixel (top + i) (left + j) = img.pixel i j := by
  simp only [sliceAssign]
  rw [if_pos ⟨Nat.le_add_right top i, by omega, Nat.le_add_right left j, by omega⟩]
  rw [Nat.add_sub_cancel_left, Nat.add_sub_cancel_left]

theorem sliceAssign_pixel_outside (res img : Image) (top left i j : Nat)
    (h : i < top ∨ top + img.height ≤ i ∨ j < left ∨ left + img.width ≤ j) :
    (sliceAssign res img top left).pixel i j = res.pixel i j := by
  simp only [sliceAssign]
  rw [if_neg]
  omega

/-- C1: for every 2D image with `img_h ≤ frame_h` and `img_w ≤ frame_w` and
every offsets the sampler can draw (`pad_top ∈ [0, frame_h - img_h]`,
`pad_left ∈ [0, frame_w - img_w]`), `randomly_displace_and_pad` returns an
array of shape exactly `frame_size` with the dtype of the input, the slice
at `[pad_top : pad_top + img_h, pad_left : pad_left + img_w]` equals the
input image, and every pixel outside that slice is exactly zero. -/
theorem randomly_displace_and_pad_correct (pad_top pad_left : Nat) (img : Image)
    (frame_h frame_w : Nat) (crop_if_necessary : Bool)
    (hh : img.height ≤ frame_h) (hw : img.width ≤ frame_w)
    (ht : pad_top ≤ frame_h - img.height) (hl : pad_left ≤ frame_w - img.width) :
    ∃ res,
      randomly_displace_and_pad pad_top pad_left img (frame_h, frame_w)
          crop_if_necessary = Except.ok res ∧
      res.height = frame_h ∧ res.width = frame_w ∧ res.dtype = img.dtype ∧
      pad_top + img.height ≤ frame_h ∧ pad_left + img.width ≤ frame_w ∧
      (∀ i < img.height, ∀ j < img.width,
        res.pixel (pad_top + i) (pad_left + j) = img.pixel i j) ∧
      (∀ i < frame_h, ∀ j < frame_w,
        (i < pad_top ∨ pad_top + img.height ≤ i ∨ j < pad_left ∨
          pad_left + img.width ≤ j) →
        res.pixel i j = 0) := by
  refine ⟨sliceAssign (zeros frame_h frame_w img.dtype) img pad_top pad_left,
    ?_, rfl, rfl, rfl, by omega, by omega, ?_, ?_⟩
  · simp only [randomly_displace_and_pad]
    rw [if_neg (by simp only [not_or, not_lt]; exact ⟨hh, hw⟩)]
  · intro i hi j hj
    exact sliceAssign_pixel_inside _ _ _ _ _ _ hi hj
  · intro i _ j _ hout
    rw [sliceAssign_pixel_outside _ _ _ _ _ _ hout]
    rfl

/-- Witness for C1 at a concrete input: a 2 by 3 image in a 4 by 5 frame
with offsets (1, 1). -/
theorem randomly_displace_and_pad_correct_witness :
    (img23.height ≤ 4 ∧ img23.width ≤ 5 ∧ 1 ≤ 4 - img23.height ∧
      1 ≤ 5 - img23.width) ∧
    (∃ res,
      randomly_displace_and_pad 1 1 img23 (4, 5) false = Except.ok res ∧
      res.height = 4 ∧ res.width = 5 ∧ res.dtype = img23.dtype ∧
      1 + img23.height ≤ 4 ∧ 1 + img23.width ≤ 5 ∧
      (∀ i < img23.height, ∀ j < img23.width,
        res.pixel (1 + i) (1 + j) = img23.pixel i j) ∧
      (∀ i < 4, ∀ j < 5,
        (i < 1 ∨ 1 + img23.height ≤ i ∨ j < 1 ∨ 1 + img23.width ≤ j) →
        res.pixel i j = 0)) :=
  ⟨by decide,
   randomly_displace_and_pad_correct 1 1 img23 4 5 false (by decide) (by decide)
     (by decide) (by decide)⟩

/-- C2: `randomly_displace_and_pad` fails (raises `AssertionError`, modelled
as `Except.error`) if and only if `crop_if_necessary` is false and the frame
is smaller than the image in at least one dimension. -/
theorem randomly_displace_and_pad_error_iff (pad_top pad_left : Nat) (img : Image)
    (padded_size : Nat × Nat) (crop_if_necessary : Bool) :
    (∃ e, randomly_displace_and_pad pad_top pad_left img padded_size
        crop_if_necessary = Except.error e)
      ↔ crop_if_necessary = false ∧
        (padded_size.1 < img.height ∨ padded_size.2 < img.width) := by
  simp only [randomly_displace_and_pad]
  by_cases hc : padded_size.1 < img.height ∨ padded_size.2 < img.width
  · rw [if_pos hc]
    cases crop_if_necessary <;> simp [hc]
  · rw [if_neg hc]
    simp [hc]

/-- C3: when the frame is smaller than the image in some dimension and
`crop_if_necessary` is true, `randomly_displace_and_pad` crops the image to
`(min img_h frame_h, min img_w frame_w)` keeping the top-left region, and
continues with the cropped dimensions: the result has shape `frame_size`,
the slice at the sampled offsets equals the top-left crop of the input and
everything else is zero. -/
theorem randomly_displace_and_pad_crop_correct (pad_top pad_left : Nat)
    (img : Image) (frame_h frame_w : Nat)
    (hsmall : frame_h < img.height ∨ frame_w < img.width)
    (ht : pad_top ≤ frame_h - min img.height frame_h)
    (hl : pad_left ≤ frame_w - min img.width frame_w) :
    ∃ res,
      randomly_displace_and_pad pad_top pad_left img (frame_h, frame_w) true
        = Except.ok res ∧
      res.height = frame_h ∧ res.width = frame_w ∧ res.dtype = img.dtype ∧
      (∀ i < min img.height frame_h, ∀ j < min img.width frame_w,
        res.pixel (pad_top + i) (pad_left + j) = img.pixel i j) ∧
      (∀ i < frame_h, ∀ j < frame_w,
        (i < pad_top ∨ pad_top + min img.height frame_h ≤ i ∨ j < pad_left ∨
          pad_left + min img.width frame_w ≤ j) →
        res.pixel i j = 0) := by
  refine ⟨sliceAssign (zeros frame_h frame_w img.dtype)
      (cropTopLeft img (min img.height frame_h) (min img.width frame_w))
      pad_top pad_left, ?_, rfl, rfl, rfl, ?_, ?_⟩
  · simp only [randomly_displace_and_pad]
    rw [if_pos hsmall]
    rfl
  · intro i hi j hj
    have := sliceAssign_pixel_inside (zeros frame_h frame_w img.dtype)
      (cropTopLeft img (min img.height frame_h) (min img.width frame_w))
      pad_top pad_left i j (by simp [cropTopLeft]; omega) (by simp [cropTopLeft]; omega)
    exact this
  · intro i _ j _ hout
    rw [sliceAssign_pixel_outside _ _ _ _ _ _ (by simp only [cropTopLeft]; omega)]
    rfl

/-- Witness for C3 at the concrete input from the spec: `frame_size = (5, 5)`
and a 10 by 10 image, where both offsets are forced to 0 and the result is
the top-left 5 by 5 crop. -/
theorem randomly_displace_and_pad_crop_correct_witness :
    ((5 < img1010.height ∨ 5 < img1010.width) ∧
      0 ≤ 5 - min img1010.height 5 ∧ 0 ≤ 5 - min img1010.width 5) ∧
    (∃ res,
      randomly_displace_and_pad 0 0 img1010 (5, 5) true = Except.ok res ∧
      res.height = 5 ∧ res.width = 5 ∧ res.dtype = img1010.dtype ∧
      (∀ i < min img1010.height 5, ∀ j < min img1010.width 5,
        res.pixel (0 + i) (0 + j) = img1010.pixel i j) ∧
      (∀ i < 5, ∀ j < 5,
        (i < 0 ∨ 0 + min img1010.height 5 ≤ i ∨ j < 0 ∨
          0 + min img1010.width 5 ≤ j) →
        res.pixel i j = 0)) :=
  ⟨by decide,
   randomly_displace_and_pad_crop_correct 0 0 img1010 5 5 (by decide) (by decide)
     (by decide)⟩

/-- C10: on every run of `randomly_displace_and_pad` that does not raise,
the write into the canvas is in bounds: the effective (possibly cropped)
dimensions satisfy `img_h ≤ frame_h` and `img_w ≤ frame_w`, every sampled
`pad_top ∈ [0, frame_h - img_h]` satisfies `pad_top + img_h ≤ frame_h` (and
likewise for `pad_left`), and the returned array has exactly the frame
shape. -/
theorem randomly_displace_and_pad_in_bounds (pad_top pad_left : Nat)
    (img : Image) (padded_size : Nat × Nat) (crop_if_necessary : Bool)
    (res : Image)
    (hok : randomly_displace_and_pad pad_top pad_left img padded_size
      crop_if_necessary = Except.ok res) :
    min img.height padded_size.1 ≤ padded_size.1 ∧
    min img.width padded_size.2 ≤ padded_size.2 ∧
    (pad_top ≤ padded_size.1 - min img.height padded_size.1 →
      pad_top + min img.height padded_size.1 ≤ padded_size.1) ∧
    (pad_left ≤ padded_size.2 - min img.width padded_size.2 →
      pad_left + min img.width padded_size.2 ≤ padded_size.2) ∧
    res.height = padded_size.1 ∧ res.width = padded_size.2 := by
  refine ⟨by omega, by omega, by omega, by omega, ?_⟩
  simp only [randomly_displace_and_pad] at hok
  by_cases hc : padded_size.1 < img.height ∨ padded_size.2 < img.width
  · rw [if_pos hc] at hok
    cases crop_if_necessary
    · simp at hok
    · simp only [if_pos, Except.ok.injEq] at hok
      rw [← hok]
      exact ⟨rfl, rfl⟩
  · rw [if_neg hc] at hok
    simp only [Except.ok.injEq] at hok
    rw [← hok]
    exact ⟨rfl, rfl⟩

/-- Witness for C10 at a concrete input: a 2 by 3 image in a 4 by 5 frame
with offsets (1, 1). -/
theorem randomly_displace_and_pad_in_bounds_witness :
    randomly_displace_and_pad 1 1 img23 (4, 5) false =
      Except.ok (sliceAssign (zeros 4 5 img23.dtype) img23 1 1) ∧
    (min img23.height 4 ≤ 4 ∧ min img23.width 5 ≤ 5 ∧
      (1 ≤ 4 - min img23.height 4 → 1 + min img23.height 4 ≤ 4) ∧
      (1 ≤ 5 - min img23.width 5 → 1 + min img23.width 5 ≤ 5) ∧
      (sliceAssign (zeros 4 5 img23.dtype) img23 1 1).height = 4 ∧
      (sliceAssign (zeros 4 5 img23.dtype) img23 1 1).width = 5) :=
  ⟨rfl, randomly_displace_and_pad_in_bounds 1 1 img23 (4, 5) false _ rfl⟩

theorem pyInt_nonpos_iff_floor_nonpos (q : ℚ) : pyInt q ≤ 0 ↔ ⌊q⌋ ≤ 0 := by
  unfold pyInt
  split
  · exact Iff.rfl
  · rename_i h
    push_neg at h
    constructor
    · intro hle
      exact le_trans (Int.floor_le_ceil q) hle
    · intro _
      exact Int.ceil_le.mpr (by exact_mod_cast h.le)

/-- C4: `SafeRandomScale.apply` returns the input image unchanged (identity)
whenever the candidate dimensions `⌊h * scale⌋` or `⌊w * scale⌋` are `≤ 0`,
and otherwise delegates to the superclass scale-and-resize operator; the
no-op threshold is exactly the nonpositivity of the integer candidate
dimensions. -/
theorem safeRandomScale_apply_guard (superApply : Image → ℚ → Image)
    (img : Image) (scale : ℚ) :
    (⌊(img.height : ℚ) * scale⌋ ≤ 0 ∨ ⌊(img.width : ℚ) * scale⌋ ≤ 0 →
      SafeRandomScale.apply superApply img scale = img) ∧
    (0 < ⌊(img.height : ℚ) * scale⌋ ∧ 0 < ⌊(img.width : ℚ) * scale⌋ →
      SafeRandomScale.apply superApply img scale = superApply img scale) := by
  have a := pyInt_nonpos_iff_floor_nonpos ((img.height : ℚ) * scale)
  have b := pyInt_nonpos_iff_floor_nonpos ((img.width : ℚ) * scale)
  constructor
  · intro h
    simp only [SafeRandomScale.apply]
    rw [if_pos (by omega)]
  · intro h
    simp only [SafeRandomScale.apply]
    rw [if_neg (by omega)]

/-- Witness for C4 at a concrete input: scale 0 drives both candidate
dimensions to 0, so the image is returned unchanged. -/
theorem safeRandomScale_apply_guard_witness :
    (⌊(img23.height : ℚ) * 0⌋ ≤ 0 ∨ ⌊(img23.width : ℚ) * 0⌋ ≤ 0) ∧
    SafeRandomScale.apply (fun im _ => im) img23 0 = img23 :=
  ⟨Or.inl (by simp), (safeRandomScale_apply_guard (fun im _ => im) img23 0).1
    (Or.inl (by simp))⟩

/-- C5: for every image and every `scale > 0`, `dpi_adjusting` returns an
image resized to exactly `⌈h * scale⌉` rows and `⌈w * scale⌉` columns. -/
theorem dpi_adjusting_shape (img : Image) (scale : ℚ) (hs : 0 < scale) :
    ((dpi_adjusting img scale).height : Int) = ⌈(img.height : ℚ) * scale⌉ ∧
    ((dpi_adjusting img scale).width : Int) = ⌈(img.width : ℚ) * scale⌉ := by
  have h1 : (0 : ℚ) ≤ (img.height : ℚ) * scale :=
    mul_nonneg (Nat.cast_nonneg _) hs.le
  have h2 : (0 : ℚ) ≤ (img.width : ℚ) * scale :=
    mul_nonneg (Nat.cast_nonneg _) hs.le
  constructor <;>
    simp [dpi_adjusting, cvResize, Int.toNat_of_nonneg (Int.ceil_nonneg h1),
      Int.toNat_of_nonneg (Int.ceil_nonneg h2)]

/-- Witness for C5 at the concrete input from the spec: a `(100, 100)` image
with `scale = 0.5` yields a `(50, 50)` image. -/
theorem dpi_adjusting_shape_witness :
    0 < (1 / 2 : ℚ) ∧ (dpi_adjusting img100 (1 / 2)).height = 50 ∧
      (dpi_adjusting img100 (1 / 2)).width = 50 := by
  have h := dpi_adjusting_shape img100 (1 / 2) (by norm_num)
  have e1 : ⌈(img100.height : ℚ) * (1 / 2)⌉ = (50 : Int) := by
    norm_num [img100]
  have e2 : ⌈(img100.width : ℚ) * (1 / 2)⌉ = (50 : Int) := by
    norm_num [img100]
  refine ⟨by norm_num, ?_, ?_⟩
  · exact_mod_cast h.1.trans e1
  · exact_mod_cast h.2.trans e2

/-- C6: for every configuration, `parse_method = "word"` produces a train
pipeline of exactly the 6 stages `[DpiAdjust, SafeRandomScale, SafeRotate,
RandomBrightnessContrast, GaussNoise, Normalize]` in this order, and
`parse_method = "form"` produces a train pipeline of exactly 8 stages whose
last stage is `randomly_displace_and_pad` with the precomputed padded size
and `crop_if_necessary = true`. -/
theorem postInit_word_and_form_stages (mis : Nat × Nat) (np : ℚ × ℚ)
    (sc lim : ℚ) (rot : Int) :
    (∃ test,
      IAMImageTransforms.postInit ⟨mis, "word", np, sc, lim, rot⟩ =
        Except.ok
          ([Stage.dpiAdjust sc, Stage.safeRandomScale lim (1 / 2),
            Stage.safeRotate rot, Stage.randomBrightnessContrast,
            Stage.gaussNoise, Stage.normalize np.1 np.2], test)) ∧
    (∃ train test,
      IAMImageTransforms.postInit ⟨mis, "form", np, sc, lim, rot⟩ =
        Except.ok (train, test) ∧
      train.length = 8 ∧
      train.getLast? = some (Stage.randomDisplaceAndPad
        (IAMImageTransforms.paddedSize ⟨mis, "form", np, sc, lim, rot⟩) true)) :=
  ⟨⟨_, rfl⟩, ⟨_, _, rfl, rfl, rfl⟩⟩

/-- C7: for every `parse_method` other than `"word"`, `"line"` or `"form"`,
`IAMImageTransforms.__post_init__` fails (raises `ValueError`, modelled as
`Except.error`) with a message naming the offending value, and no train or
test pipeline is produced. -/
theorem postInit_invalid_parse_method (cfg : IAMImageTransforms)
    (h1 : cfg.parse_method ≠ "word") (h2 : cfg.parse_method ≠ "line")
    (h3 : cfg.parse_method ≠ "form") :
    IAMImageTransforms.postInit cfg =
      Except.error (cfg.parse_method ++ " is not a valid parse method.") := by
  simp only [IAMImageTransforms.postInit]
  rw [if_neg h1, if_neg h2, if_neg h3]

/-- Witness for C7 at the concrete parse method `"page"`. -/
theorem postInit_invalid_parse_method_witness :
    (cfgPage.parse_method ≠ "word" ∧ cfgPage.parse_method ≠ "line" ∧
      cfgPage.parse_method ≠ "form") ∧
    IAMImageTransforms.postInit cfgPage =
      Except.error (cfgPage.parse_method ++ " is not a valid parse method.") :=
  ⟨by decide,
   postInit_invalid_parse_method cfgPage (by decide) (by decide) (by decide)⟩

/-- C9: with all other constructor arguments equal, `parse_method = "word"`
and `parse_method = "line"` build identical train pipelines and identical
test pipelines. -/
theorem postInit_word_eq_line (mis : Nat × Nat) (np : ℚ × ℚ) (sc lim : ℚ)
    (rot : Int) :
    IAMImageTransforms.postInit ⟨mis, "word", np, sc, lim, rot⟩ =
      IAMImageTransforms.postInit ⟨mis, "line", np, sc, lim, rot⟩ := rfl

/-- C8 (amended): `padded_h` and `padded_w` are computed once as
`ceil (scale * (1 + random_scale_limit) * max_img_h)` and
`ceil (scale * (1 + random_scale_limit) * max_img_w)`, and for every image
no larger than `max_img_size` and every scale factor
`0 ≤ f ≤ 1 + random_scale_limit` the real-valued size of the maximally
scaled image, `h * scale * f` by `w * scale * f`, fits inside the frame.
(The integer-rounded pipeline dimensions can exceed the frame by one, see
the counterexample theorem.) -/
theorem padded_frame_bound (cfg : IAMImageTransforms) (h w : Nat) (f : ℚ)
    (hs : 0 ≤ cfg.scale) (hh : h ≤ cfg.max_img_size.1)
    (hw : w ≤ cfg.max_img_size.2) (hf0 : 0 ≤ f)
    (hf : f ≤ 1 + cfg.random_scale_limit) :
    cfg.paddedSize.1 =
      (Int.ceil (cfg.scale * (1 + cfg.random_scale_limit) *
        (cfg.max_img_size.1 : ℚ))).toNat ∧
    cfg.paddedSize.2 =
      (Int.ceil (cfg.scale * (1 + cfg.random_scale_limit) *
        (cfg.max_img_size.2 : ℚ))).toNat ∧
    (h : ℚ) * cfg.scale * f ≤ (cfg.paddedSize.1 : ℚ) ∧
    (w : ℚ) * cfg.scale * f ≤ (cfg.paddedSize.2 : ℚ) := by
  have hmax : cfg.scale + cfg.scale * cfg.random_scale_limit =
      cfg.scale * (1 + cfg.random_scale_limit) := by ring
  have key : ∀ n m : Nat, n ≤ m → (n : ℚ) * cfg.scale * f ≤
      (((Int.ceil ((cfg.scale + cfg.scale * cfg.random_scale_limit) *
        (m : ℚ))).toNat : ℕ) : ℚ) := by
    intro n m hnm
    have s1 : (n : ℚ) * cfg.scale ≤ (m : ℚ) * cfg.scale :=
      mul_le_mul_of_nonneg_right (by exact_mod_cast hnm) hs
    have s2 : (n : ℚ) * cfg.scale * f ≤
        (m : ℚ) * cfg.scale * (1 + cfg.random_scale_limit) :=
      mul_le_mul s1 hf hf0 (mul_nonneg (Nat.cast_nonneg m) hs)
    have s3 : (m : ℚ) * cfg.scale * (1 + cfg.random_scale_limit) =
        (cfg.scale + cfg.scale * cfg.random_scale_limit) * (m : ℚ) := by ring
    have s4 : ((cfg.scale + cfg.scale * cfg.random_scale_limit) * (m : ℚ)) ≤
        ((Int.ceil ((cfg.scale + cfg.scale * cfg.random_scale_limit) *
          (m : ℚ)) : ℤ) : ℚ) :=
      Int.le_ceil _
    have s5 : ((Int.ceil ((cfg.scale + cfg.scale * cfg.random_scale_limit) *
          (m : ℚ)) : ℤ) : ℚ) ≤
        (((Int.ceil ((cfg.scale + cfg.scale * cfg.random_scale_limit) *
          (m : ℚ))).toNat : ℕ) : ℚ) := by
      exact_mod_cast Int.self_le_toNat _
    calc (n : ℚ) * cfg.scale * f
        ≤ (m : ℚ) * cfg.scale * (1 + cfg.random_scale_limit) := s2
      _ = (cfg.scale + cfg.scale * cfg.random_scale_limit) * (m : ℚ) := s3
      _ ≤ _ := le_trans s4 s5
  refine ⟨?_, ?_, ?_, ?_⟩
  · simp only [IAMImageTransforms.paddedSize, hmax]
  · simp only [IAMImageTransforms.paddedSize, hmax]
  · simpa only [IAMImageTransforms.paddedSize] using key h cfg.max_img_size.1 hh
  · simpa only [IAMImageTransforms.paddedSize] using key w cfg.max_img_size.2 hw

/-- Witness for the amended C8 at a concrete input: a 100 by 100 image under
the configuration `cfg181`, with scale factor 1. -/
theorem padded_frame_bound_witness :
    ((0 : ℚ) ≤ cfg181.scale ∧ 100 ≤ cfg181.max_img_size.1 ∧
      100 ≤ cfg181.max_img_size.2 ∧ (0 : ℚ) ≤ 1 ∧
      (1 : ℚ) ≤ 1 + cfg181.random_scale_limit) ∧
    (cfg181.paddedSize.1 =
      (Int.ceil (cfg181.scale * (1 + cfg181.random_scale_limit) *
        (cfg181.max_img_size.1 : ℚ))).toNat ∧
     cfg181.paddedSize.2 =
      (Int.ceil (cfg181.scale * (1 + cfg181.random_scale_limit) *
        (cfg181.max_img_size.2 : ℚ))).toNat ∧
     ((100 : ℕ) : ℚ) * cfg181.scale * 1 ≤ (cfg181.paddedSize.1 : ℚ) ∧
     ((100 : ℕ) : ℚ) * cfg181.scale * 1 ≤ (cfg181.paddedSize.2 : ℚ)) :=
  ⟨⟨by norm_num [cfg181], by decide, by decide, by norm_num,
    by norm_num [cfg181]⟩,
   padded_frame_bound cfg181 100 100 1 (by norm_num [cfg181]) (by decide)
     (by decide) (by norm_num) (by norm_num [cfg181])⟩

/-- Counterexample to C8 as stated: with `max_img_size = (181, 181)`,
`scale = 1/20` and `random_scale_limit = 1/10`, a maximal 181 by 181 image
is DPI-adjusted to height `ceil (181/20) = 10` and then scaled by the
admissible factor `11/10` to height `int (10 * 11/10) = 11`, while the
precomputed frame height is `ceil ((1/20) * (11/10) * 181) = 10`: the
train-time frame is NOT large enough to contain the image after DPI
adjustment followed by random scaling by a factor up to
`1 + random_scale_limit`. -/
theorem padded_frame_containment_counterexample :
    img181.height ≤ cfg181.max_img_size.1 ∧
    img181.width ≤ cfg181.max_img_size.2 ∧
    (0 : ℚ) < cfg181.scale ∧
    (0 : ℚ) ≤ (11 / 10 : ℚ) ∧ (11 / 10 : ℚ) ≤ 1 + cfg181.random_scale_limit ∧
    cfg181.paddedSize.1 <
      (SafeRandomScale.apply randomScaleSuperApply
        (dpi_adjusting img181 cfg181.scale) (11 / 10)).height := by
  refine ⟨by decide, by decide, ?_, by norm_num, ?_, ?_⟩
  · norm_num [cfg181]
  · norm_num [cfg181]
  · have hp : cfg181.paddedSize.1 = 10 := by
      show (Int.ceil (((1 : ℚ)/20 + (1/20) * (1/10)) * ((181 : ℕ) : ℚ))).toNat = 10
      rw [show (((1 : ℚ)/20 + (1/20) * (1/10)) * ((181 : ℕ) : ℚ)) = 1991/200 by
        push_cast; ring]
      rw [show Int.ceil ((1991 : ℚ)/200) = (10 : ℤ) by
        rw [Int.ceil_eq_iff] <;> norm_num]
      rfl
    have hd : (dpi_adjusting img181 cfg181.scale).height = 10 := by
      show (Int.ceil (((181 : ℕ) : ℚ) * ((1 : ℚ)/20))).toNat = 10
      rw [show (((181 : ℕ) : ℚ) * ((1 : ℚ)/20)) = 181/20 by push_cast; ring]
      rw [show Int.ceil ((181 : ℚ)/20) = (10 : ℤ) by
        rw [Int.ceil_eq_iff] <;> norm_num]
      rfl
    have hdw : (dpi_adjusting img181 cfg181.scale).width = 10 := by
      show (Int.ceil (((181 : ℕ) : ℚ) * ((1 : ℚ)/20))).toNat = 10
      rw [show (((181 : ℕ) : ℚ) * ((1 : ℚ)/20)) = 181/20 by push_cast; ring]
      rw [show Int.ceil ((181 : ℚ)/20) = (10 : ℤ) by
        rw [Int.ceil_eq_iff] <;> norm_num]
      rfl
    have hpy : pyInt (((dpi_adjusting img181 cfg181.scale).height : ℚ) *
        (11/10)) = 11 := by
      rw [hd]
      unfold pyInt
      rw [if_pos (by norm_num)]
      rw [show ((10 : ℕ) : ℚ) * (11/10) = ((11 : ℤ) : ℚ) by push_cast; ring]
      exact Int.floor_intCast 11
    have hpyw : pyInt (((dpi_adjusting img181 cfg181.scale).width : ℚ) *
        (11/10)) = 11 := by
      rw [hdw]
      unfold pyInt
      rw [if_pos (by norm_num)]
      rw [show ((10 : ℕ) : ℚ) * (11/10) = ((11 : ℤ) : ℚ) by push_cast; ring]
      exact Int.floor_intCast 11
    have happ : (SafeRandomScale.apply randomScaleSuperApply
        (dpi_adjusting img181 cfg181.scale) (11/10)).height = 11 := by
      simp only [SafeRandomScale.apply]
      rw [if_neg (by rw [hpy, hpyw]; norm_num)]
      simp only [randomScaleSuperApply, cvResize]
      rw [hpy]
      rfl
    rw [hp, happ]
    omega

end Transforms
